import Mathlib

/-!
# Verification of the mcp-proxy streamable HTTP session manager

This file gives a shallow embedding of the session-management core of the
mcp-proxy repository (`src/streamableHttpProxyHandler.ts` and
`src/proxyServer.ts`) and proves properties of it.

The mutable module-level tables (`activeProxyConnections`,
`sessionToConnection`, `initializingSessions`, `cleanupTimer`) are modelled
as a state record `PState`; each exported operation of the source becomes a
pure state-transition function.  JavaScript `Map`/object tables are modelled
as association lists with overwriting insertion, JavaScript `Set` as a
duplicate-free list.  Upstream I/O performed during `initialize`
(`client.connect` and the MCP initialize round trip) is resolved by an
explicit `UpstreamOutcome` parameter; everything downstream of that
parameter follows the source line by line.
-/

namespace McpProxy

/-! ## Strings: JavaScript `String.prototype.includes` -/

/-- Prefix test on character lists (JavaScript `startsWith` on the char level). -/
def isPrefixChars : List Char → List Char → Bool
  | [], _ => true
  | _ :: _, [] => false
  | a :: as, b :: bs => a == b && isPrefixChars as bs

/-- Does `pat` occur contiguously inside the second list? -/
def hasInfixChars (pat : List Char) : List Char → Bool
  | [] => isPrefixChars pat []
  | c :: rest => isPrefixChars pat (c :: rest) || hasInfixChars pat rest

/-- JavaScript `s.includes(pat)`: substring containment test, used by the
source to recognize the upstream "Server already initialized" error. -/
def strIncludes (s pat : String) : Bool :=
  hasInfixChars pat.toList s.toList

/-! ## Association lists: JavaScript object tables -/

/-- A JavaScript object used as a string-keyed table. -/
abbrev Assoc (α : Type) := List (String × α)

/-- Table lookup (`obj[key]`, `undefined` becomes `none`). -/
def alookup {α : Type} : Assoc α → String → Option α
  | [], _ => none
  | (k, v) :: m, key => if key = k then some v else alookup m key

/-- Key deletion (`delete obj[key]`); removes every binding of the key. -/
def aerase {α : Type} : Assoc α → String → Assoc α
  | [], _ => []
  | (k, v) :: m, key => if key = k then aerase m key else (k, v) :: aerase m key

/-- Overwriting insertion (`obj[key] = v`). -/
def ainsert {α : Type} (m : Assoc α) (key : String) (v : α) : Assoc α :=
  (key, v) :: aerase m key

/-- Deleting a batch of keys (the session-cleanup loop). -/
def aeraseAll {α : Type} (m : Assoc α) (ks : List String) : Assoc α :=
  ks.foldl aerase m

/-- JavaScript `Set.add` on a duplicate-free list. -/
def insertSes (s : String) (l : List String) : List String :=
  if s ∈ l then l else s :: l

/-! ## Data model (`streamableHttpProxyHandler.ts` lines 13-43) -/

/-- Connection state enumeration (source `ConnectionState`). -/
inductive ConnectionState
  | initializing
  | connected
  | disconnected
  | error
deriving DecidableEq

/-- The shape of a capability set as far as the source inspects it:
presence of the `tools`, `resources`, `prompts`, `logging` keys and of
`resources.subscribe`.  The default set used for the global connection,
written in the source as tools/resources/prompts/logging all bound to the
empty object, has every presence flag true and no `subscribe`. -/
structure ServerCapabilities where
  tools : Bool
  resources : Bool
  resourcesSubscribe : Bool
  prompts : Bool
  logging : Bool
deriving DecidableEq

/-- The default capability set installed on the "Server already initialized"
path (source lines 269-274). -/
def defaultGlobalCapabilities : ServerCapabilities :=
  { tools := true, resources := true, resourcesSubscribe := false
    prompts := true, logging := true }

/-- Modelled from the spec: step 10 of the initialize protocol describes a
`serverTransport.onClose` callback that drops the closing session from the
tables and marks an emptied connection for cleanup.  The source registers no
such callback, so this type enumerates the only callback the spec mentions;
a connection stores the list of callbacks actually installed on its server
transport. -/
inductive CloseAction
  | dropSession
deriving DecidableEq

/-- Source `ProxyConnection` (lines 22-31).  `serverCaps` records the
capability set the connection's local `Server` was constructed with
(line 293-296); `onCloseActions` records the callbacks installed on
`serverTransport.onclose` (the source installs none). -/
structure ProxyConnection where
  state : ConnectionState
  createdAt : Nat
  lastUsed : Nat
  sessionIds : List String
  serverCaps : Option ServerCapabilities
  onCloseActions : List CloseAction
deriving DecidableEq

/-- The module-level mutable state of `streamableHttpProxyHandler.ts`:
`activeProxyConnections`, `sessionToConnection`, `initializingSessions`,
and whether `cleanupTimer` is running. -/
structure PState where
  active : Assoc ProxyConnection
  s2c : Assoc String
  initializing : List String
  timerOn : Bool
deriving DecidableEq

/-- The state at module load: all tables empty, no timer. -/
def init0 : PState :=
  { active := [], s2c := [], initializing := [], timerOn := false }

def globalConnectionId : String := "global-mcp-connection"

/-! ## HTTP requests and responses -/

/-- The parts of the incoming HTTP request the handler inspects: the method,
the `mcp-session-id` header, and whether `isInitializeRequest(body)` holds. -/
structure Request where
  method : String
  sessionIdHeader : Option String
  isInit : Bool
deriving DecidableEq

/-- A JSON-RPC error object as serialized by the handler. -/
structure RpcErrorObj where
  code : Int
  message : String
deriving DecidableEq

/-- The JSON body the handler serializes on its session error paths:
fields `jsonrpc`, `id` (always null, modelled as `none`), `error`.
The model is structural, so it identifies bodies up to JSON key order. -/
structure RpcErrorBody where
  jsonrpc : String
  jsonId : Option Nat
  error : RpcErrorObj
deriving DecidableEq

/-- The HTTP response produced by one invocation of the handler. -/
inductive HResp
  /-- `res.writeHead(204); res.end()` for OPTIONS. -/
  | noContent
  /-- The request was handed to `serverTransport.handleRequest`. -/
  | dispatched (status : Nat) (contentType : String)
  /-- A JSON-RPC error body written directly by the handler. -/
  | rpc (status : Nat) (contentType : String) (body : RpcErrorBody)
  /-- The outer catch: a JSON diagnostic object with fields
  `error`, `message`, `details` (not a JSON-RPC envelope). -/
  | internalFailure (status : Nat) (contentType : String)
      (errorField messageField details : String)
deriving DecidableEq

/-- Modelled from the spec: the SDK `StreamableHTTPServerTransport`
(external to this repository) answers a handled POST with HTTP 200 and
`Content-Type: application/json` (spec section 6 and scenarios 1 and 3). -/
def transportDispatch : HResp :=
  .dispatched 200 "application/json"

def sessionNotFoundResp : HResp :=
  .rpc 200 "application/json"
    { jsonrpc := "2.0", jsonId := none
      error := { code := -32000, message := "Session not found" } }

def missingSessionResp : HResp :=
  .rpc 400 "application/json"
    { jsonrpc := "2.0", jsonId := none
      error := { code := -32000, message := "Missing session ID" } }

def connectionLostResp : HResp :=
  .rpc 200 "application/json"
    { jsonrpc := "2.0", jsonId := none
      error := { code := -32000, message := "Connection lost, please reinitialize" } }

/-- The result of one invocation of `handleStreamableHttpProxy`: the new
table state, the HTTP response, the returned boolean, plus observables used
to state properties: whether execution entered the initialize body (the
region after `initializingSessions.add`), how many times `client.close()`
was called, and the final `state` of a connection object created during the
call (if one was). -/
structure HandleResult where
  st : PState
  resp : HResp
  ret : Bool
  ranInitBody : Bool
  clientCloseCalls : Nat
  localConnState : Option ConnectionState
deriving DecidableEq

/-! ## Helper functions of the source -/

/-- Source `validateConnection` (lines 92-104): false when the state is not
`connected`; nothing inside the `try` can throw. -/
def validateConnection (conn : ProxyConnection) : Bool :=
  conn.state = ConnectionState.connected

/-- Source `cleanupConnection` (lines 63-89): deletes every one of the
connection's session ids from `sessionToConnection`, then deletes the
connection itself; close errors are logged and swallowed. -/
def cleanupConnection (st : PState) (cid : String) : PState :=
  match alookup st.active cid with
  | none => st
  | some conn =>
      { st with
        s2c := aeraseAll st.s2c conn.sessionIds
        active := aerase st.active cid }

/-- Source `startCleanupTimer` (lines 46-60): idempotently starts the timer. -/
def startCleanupTimer (st : PState) : PState :=
  { st with timerOn := true }

/-! ## The initialize path -/

/-- Outcome of the upstream half of a new connection: `client.connect`
followed by the MCP `initialize` round trip (source lines 252-261). -/
inductive UpstreamOutcome
  | connectFail (msg : String)
  | initOk (caps : ServerCapabilities)
  | initErr (msg : String)
deriving DecidableEq

/-- The connection object built at source lines 240-249 as it stands when it
is stored at line 309: connected, created and last used now, tracking the
one session, with `Server` capabilities attached and no `onclose` callback
installed on its server transport. -/
def freshConn (sid : String) (caps : ServerCapabilities) (now : Nat) : ProxyConnection :=
  { state := ConnectionState.connected, createdAt := now, lastUsed := now
    sessionIds := [sid], serverCaps := some caps, onCloseActions := [] }

/-- Registration of a freshly built connection (source lines 283-328):
create the server transport (no `onclose` callback is installed), build the
local `Server` carrying `serverCapabilities`, connect, install the proxy
bridge, store the connection and the session mapping, start the timer, and
dispatch the initialize request.  On the global path the source clears
`sessionIds` and re-adds the session id, which leaves the singleton set
unchanged. -/
def register (st : PState) (sid cid : String) (caps : ServerCapabilities)
    (now : Nat) : HandleResult :=
  { st := { st with
      active := ainsert st.active cid (freshConn sid caps now)
      s2c := ainsert st.s2c sid cid
      timerOn := true }
    resp := transportDispatch, ret := true, ranInitBody := true
    clientCloseCalls := 0, localConnState := some ConnectionState.connected }

/-- The new-connection block (source lines 221-336): connect upstream, run
the initialize round trip, branch on the error message, then register.  A
connect failure or a non-matching initialize error sets the local connection
state to `error`, closes the client, and rethrows to the outer catch which
writes the HTTP 500 diagnostic (lines 396-407). -/
def newConnection (st : PState) (sid : String) (up : UpstreamOutcome)
    (now : Nat) : HandleResult :=
  match up with
  | .connectFail msg =>
      { st := st
        resp := .internalFailure 500 "application/json" "Internal Server Error"
          "Failed to handle streamable HTTP proxy request" msg
        ret := true, ranInitBody := true, clientCloseCalls := 1
        localConnState := some ConnectionState.error }
  | .initOk caps => register st sid sid caps now
  | .initErr msg =>
      if strIncludes msg "Server already initialized" then
        register st sid globalConnectionId defaultGlobalCapabilities now
      else
        { st := st
          resp := .internalFailure 500 "application/json" "Internal Server Error"
            "Failed to handle streamable HTTP proxy request" msg
          ret := true, ranInitBody := true, clientCloseCalls := 2
          localConnState := some ConnectionState.error }

/-- The global-connection reuse check (source lines 205-219), entered after
the per-session check: reuse a valid global connection, otherwise clean it
up and fall through to the new-connection block. -/
def afterExisting (st : PState) (sid : String) (up : UpstreamOutcome)
    (now : Nat) : HandleResult :=
  match alookup st.active globalConnectionId with
  | some g =>
      if validateConnection g then
        { st := { st with
            s2c := ainsert st.s2c sid globalConnectionId
            active := ainsert st.active globalConnectionId
              { g with sessionIds := insertSes sid g.sessionIds, lastUsed := now } }
          resp := transportDispatch, ret := true, ranInitBody := true
          clientCloseCalls := 0, localConnState := none }
      else
        newConnection (cleanupConnection st globalConnectionId) sid up now
  | none => newConnection st sid up now

/-- The body of the `try` guarded by `initializingSessions` (source lines
188-336): reuse a valid existing connection for the session, cleaning up an
invalid one, then fall through to the global check. -/
def initTry (st : PState) (sid : String) (up : UpstreamOutcome)
    (now : Nat) : HandleResult :=
  match alookup st.s2c sid with
  | some ecid =>
      match alookup st.active ecid with
      | some conn =>
          if validateConnection conn then
            { st := { st with active := ainsert st.active ecid { conn with lastUsed := now } }
              resp := transportDispatch, ret := true, ranInitBody := true
              clientCloseCalls := 0, localConnState := none }
          else
            afterExisting (cleanupConnection st ecid) sid up now
      | none => afterExisting st sid up now
  | none => afterExisting st sid up now

/-- The `finally` of the initialize body (source lines 338-340): delete the
session id from `initializingSessions` on every exit path.  Also records
that the initialize body ran. -/
def finishInit (sid : String) (r : HandleResult) : HandleResult :=
  { r with
    ranInitBody := true
    st := { r.st with initializing := r.st.initializing.filter (fun x => x != sid) } }

/-- `initializingSessions.add` followed by the guarded body and its
`finally` (source lines 186-340). -/
def initBody (st : PState) (sid : String) (up : UpstreamOutcome)
    (now : Nat) : HandleResult :=
  finishInit sid
    (initTry { st with initializing := insertSes sid st.initializing } sid up now)

/-- The initialize branch of the handler (source lines 164-343): resolve the
session id, run the concurrent-initialization guard (which, when the session
is already initializing, waits 100 ms and dispatches through an existing
mapping without validating it), and otherwise fall through to the initialize
body. -/
def handleInitialize (st : PState) (header : Option String) (minted : String)
    (up : UpstreamOutcome) (now : Nat) : HandleResult :=
  if header.getD minted ∈ st.initializing then
    match alookup st.s2c (header.getD minted) with
    | some cid =>
        match alookup st.active cid with
        | some conn =>
            { st := { st with active := ainsert st.active cid { conn with lastUsed := now } }
              resp := transportDispatch, ret := true, ranInitBody := false
              clientCloseCalls := 0, localConnState := none }
        | none => initBody st (header.getD minted) up now
    | none => initBody st (header.getD minted) up now
  else initBody st (header.getD minted) up now

/-- Source `handleStreamableHttpProxy` (lines 125-408).  `minted` is the
UUID `randomUUID()` would mint, `up` resolves the upstream I/O, `now` is
`Date.now()`. -/
def handle (st : PState) (req : Request) (minted : String)
    (up : UpstreamOutcome) (now : Nat) : HandleResult :=
  if req.method = "OPTIONS" then
    { st := st, resp := .noContent, ret := true, ranInitBody := false
      clientCloseCalls := 0, localConnState := none }
  else if req.isInit then
    handleInitialize st req.sessionIdHeader minted up now
  else
    match req.sessionIdHeader with
    | none =>
        { st := st, resp := missingSessionResp, ret := true, ranInitBody := false
          clientCloseCalls := 0, localConnState := none }
    | some hdr =>
        match alookup st.s2c hdr with
        | none =>
            { st := st, resp := sessionNotFoundResp, ret := true, ranInitBody := false
              clientCloseCalls := 0, localConnState := none }
        | some cid =>
            match alookup st.active cid with
            | none =>
                { st := st, resp := sessionNotFoundResp, ret := true, ranInitBody := false
                  clientCloseCalls := 0, localConnState := none }
            | some conn =>
                if validateConnection conn then
                  { st := { st with active := ainsert st.active cid { conn with lastUsed := now } }
                    resp := transportDispatch, ret := true, ranInitBody := false
                    clientCloseCalls := 0, localConnState := none }
                else
                  { st := cleanupConnection st cid, resp := connectionLostResp
                    ret := true, ranInitBody := false
                    clientCloseCalls := 0, localConnState := none }

/-! ## The other state-mutating operations -/

/-- The periodic sweep body (source lines 49-59): over a snapshot of the
entries, clean up every connection idle for more than 30 minutes whose
`sessionIds` set is empty.  Runs only while the timer is on. -/
def CLEANUP_THRESHOLD : Nat := 30 * 60 * 1000

def sweep (st : PState) (now : Nat) : PState :=
  if st.timerOn then
    (((st.active.filter
        (fun p => decide (now - p.2.lastUsed > CLEANUP_THRESHOLD) &&
                  p.2.sessionIds.length == 0)).map Prod.fst).foldl
      cleanupConnection st)
  else st

/-- Source `forceCleanupAllConnections` (lines 429-447): stop the timer,
clean up every connection, delete every remaining session mapping, clear the
initializing set. -/
def forceCleanupAllConnections (st : PState) : PState :=
  let st1 := { st with timerOn := false }
  let st2 := (st1.active.map Prod.fst).foldl cleanupConnection st1
  { st2 with s2c := [], initializing := [] }

/-- Applying one registered `onclose` callback of a server transport.
`CloseAction.dropSession` is the spec's step-10 callback: drop the closing
session from the tables. -/
def applyCloseAction (st : PState) (cid sid : String) :
    CloseAction → PState
  | .dropSession =>
      match alookup st.active cid with
      | none => { st with s2c := aerase st.s2c sid }
      | some conn =>
          { st with
            s2c := aerase st.s2c sid
            active := ainsert st.active cid
              { conn with sessionIds := conn.sessionIds.filter (fun x => x != sid) } }

/-- The SDK server transport closing for session `sid` of connection `cid`:
it runs whatever `onclose` callbacks the handler installed on it (the source
installs none, so the registered list of every created connection is empty). -/
def serverTransportClosed (st : PState) (cid sid : String) : PState :=
  match alookup st.active cid with
  | none => st
  | some conn =>
      conn.onCloseActions.foldl (fun s a => applyCloseAction s cid sid a) st

/-! ## Events and reachability -/

/-- One atomic invocation of an operation on the shared tables. -/
inductive Ev
  | req (r : Request) (minted : String) (up : UpstreamOutcome) (now : Nat)
  | sweepTick (now : Nat)
  | forced
  | closed (cid sid : String)
  | cleanup (cid : String)

/-- The state transition of one event. -/
def stepEv (st : PState) : Ev → PState
  | .req r m u n => (handle st r m u n).st
  | .sweepTick n => sweep st n
  | .forced => forceCleanupAllConnections st
  | .closed c s => serverTransportClosed st c s
  | .cleanup c => cleanupConnection st c

/-- States reachable from module load by any sequence of invocations. -/
inductive Reach : PState → Prop
  | init : Reach init0
  | step {st : PState} (h : Reach st) (e : Ev) : Reach (stepEv st e)

/-! ## Lemmas about the table operations -/

@[simp]
theorem alookup_nil {α : Type} (k : String) : alookup ([] : Assoc α) k = none := rfl

theorem alookup_aerase {α : Type} (m : Assoc α) (key k : String) :
    alookup (aerase m key) k = if k = key then none else alookup m k := by
  induction m with
  | nil => simp [aerase]
  | cons hd tl ih =>
      obtain ⟨k0, v0⟩ := hd
      by_cases h0 : key = k0
      · subst h0
        by_cases h1 : k = key
        · simpa [aerase, alookup, h1] using ih
        · simpa [aerase, alookup, h1] using ih
      · by_cases h1 : k = k0
        · subst h1
          have : ¬ k = key := fun h => h0 (by rw [h])
          simp [aerase, alookup, h0, this]
        · simp [aerase, alookup, h0, h1, ih]

theorem alookup_ainsert {α : Type} (m : Assoc α) (key k : String) (v : α) :
    alookup (ainsert m key v) k = if k = key then some v else alookup m k := by
  unfold ainsert
  by_cases h : k = key
  · simp [alookup, h]
  · simp [alookup, h, alookup_aerase]

theorem alookup_aeraseAll {α : Type} (ks : List String) (m : Assoc α) (k : String) :
    alookup (aeraseAll m ks) k = if k ∈ ks then none else alookup m k := by
  induction ks generalizing m with
  | nil => simp [aeraseAll]
  | cons a tl ih =>
      have hstep : aeraseAll m (a :: tl) = aeraseAll (aerase m a) tl := rfl
      rw [hstep, ih]
      by_cases h1 : k ∈ tl
      · simp [h1, List.mem_cons]
      · by_cases h2 : k = a
        · simp [h1, h2, alookup_aerase]
        · simp [h1, h2, alookup_aerase, List.mem_cons]

theorem mem_keys_of_alookup_some {α : Type} {m : Assoc α} {k : String} {v : α}
    (h : alookup m k = some v) : k ∈ m.map Prod.fst := by
  induction m with
  | nil => simp [alookup] at h
  | cons hd tl ih =>
      obtain ⟨k0, v0⟩ := hd
      by_cases h1 : k = k0
      · simp [h1]
      · simp only [alookup, h1, if_false] at h
        simp [ih h]

theorem mem_insertSes {a b : String} {l : List String} :
    b ∈ insertSes a l ↔ b = a ∨ b ∈ l := by
  unfold insertSes
  by_cases h : a ∈ l
  · simp only [h, if_true]
    constructor
    · exact Or.inr
    · rintro (rfl | hb)
      · exact h
      · exact hb
  · simp [h, List.mem_cons]

/-! ## The table-consistency invariant -/

/-- The inductive invariant of the session tables:
the two maps index each other exactly, every non-global connection still
contains the session id that created it, and no connection has an
`onclose` callback registered. -/
structure InvT (active : Assoc ProxyConnection) (s2c : Assoc String) : Prop where
  s2cSound : ∀ sid cid, alookup s2c sid = some cid →
    ∃ conn, alookup active cid = some conn ∧ sid ∈ conn.sessionIds
  sessionsSound : ∀ cid conn, alookup active cid = some conn →
    ∀ sid, sid ∈ conn.sessionIds → alookup s2c sid = some cid
  ownSession : ∀ cid conn, alookup active cid = some conn →
    cid ≠ globalConnectionId → cid ∈ conn.sessionIds
  noCloseActions : ∀ cid conn, alookup active cid = some conn →
    conn.onCloseActions = []

theorem InvT_init0 : InvT init0.active init0.s2c := by
  constructor <;> intro sid cid h <;> simp [init0, alookup] at h

/-- Replacing a stored connection by one with the same `sessionIds` and the
same callbacks (a `lastUsed` bump) preserves the invariant. -/
theorem InvT_bump {st : PState} {cid : String} {conn conn2 : ProxyConnection}
    (hl : alookup st.active cid = some conn)
    (hs : conn2.sessionIds = conn.sessionIds)
    (ho : conn2.onCloseActions = conn.onCloseActions)
    (h : InvT st.active st.s2c) :
    InvT (ainsert st.active cid conn2) st.s2c := by
  constructor
  · intro sid c hsc
    obtain ⟨c2, hc2, hm⟩ := h.s2cSound sid c hsc
    by_cases he : c = cid
    · subst he
      rw [hc2] at hl
      refine ⟨conn2, ?_, ?_⟩
      · rw [alookup_ainsert]; simp
      · rw [hs, ← Option.some_inj.mp hl]; exact hm
    · exact ⟨c2, by rw [alookup_ainsert]; simp [he, hc2], hm⟩
  · intro c cx hcx sid hsid
    rw [alookup_ainsert] at hcx
    by_cases he : c = cid
    · simp only [he, if_pos rfl] at hcx
      have : cx = conn2 := (Option.some_inj.mp hcx).symm
      subst this
      rw [hs] at hsid
      exact he ▸ h.sessionsSound cid conn hl sid hsid
    · simp only [he, if_false] at hcx
      exact h.sessionsSound c cx hcx sid hsid
  · intro c cx hcx hne
    rw [alookup_ainsert] at hcx
    by_cases he : c = cid
    · simp only [he, if_pos rfl] at hcx
      have : cx = conn2 := (Option.some_inj.mp hcx).symm
      subst this
      rw [hs]
      exact he ▸ h.ownSession cid conn hl (he ▸ hne)
    · simp only [he, if_false] at hcx
      exact h.ownSession c cx hcx hne
  · intro c cx hcx
    rw [alookup_ainsert] at hcx
    by_cases he : c = cid
    · simp only [he, if_pos rfl] at hcx
      have : cx = conn2 := (Option.some_inj.mp hcx).symm
      subst this
      rw [ho]
      exact h.noCloseActions cid conn hl
    · simp only [he, if_false] at hcx
      exact h.noCloseActions c cx hcx

/-- `cleanupConnection` preserves the invariant. -/
theorem InvT_cleanup (st : PState) (cid : String)
    (h : InvT st.active st.s2c) :
    InvT (cleanupConnection st cid).active (cleanupConnection st cid).s2c := by
  unfold cleanupConnection
  cases hc : alookup st.active cid with
  | none => exact h
  | some conn =>
      constructor
      · intro sid c hsc
        simp only [alookup_aeraseAll] at hsc
        split at hsc
        · exact absurd hsc (by simp)
        next hks =>
          obtain ⟨conn2, hc2, hmem⟩ := h.s2cSound sid c hsc
          refine ⟨conn2, ?_, hmem⟩
          rw [alookup_aerase]
          split
          next heq =>
            rw [heq] at hc2
            rw [hc2] at hc
            exact absurd (Option.some_inj.mp hc ▸ hmem) hks
          next => exact hc2
      · intro c cx hcx sid hsid
        simp only [alookup_aerase] at hcx
        split at hcx
        · exact absurd hcx (by simp)
        next hne =>
          have hmap := h.sessionsSound c cx hcx sid hsid
          simp only [alookup_aeraseAll]
          split
          next hmem =>
            have := h.sessionsSound cid conn hc sid hmem
            rw [hmap] at this
            exact absurd (Option.some_inj.mp this) hne
          next => exact hmap
      · intro c cx hcx hne
        simp only [alookup_aerase] at hcx
        split at hcx
        · exact absurd hcx (by simp)
        next => exact h.ownSession c cx hcx hne
      · intro c cx hcx
        simp only [alookup_aerase] at hcx
        split at hcx
        · exact absurd hcx (by simp)
        next => exact h.noCloseActions c cx hcx

/-- Cleanup never resurrects a key of the connection table. -/
theorem cleanup_active_none {st : PState} {c : String} (cid : String)
    (h : alookup st.active c = none) :
    alookup (cleanupConnection st cid).active c = none := by
  unfold cleanupConnection
  cases hc : alookup st.active cid with
  | none => exact h
  | some conn => simp [alookup_aerase, h]

/-- Cleanup removes its own key from the connection table. -/
theorem cleanup_active_self (st : PState) (cid : String) :
    alookup (cleanupConnection st cid).active cid = none := by
  unfold cleanupConnection
  cases hc : alookup st.active cid with
  | none => exact hc
  | some conn => simp [alookup_aerase]

/-- Cleanup never resurrects a session key either. -/
theorem cleanup_s2c_none {st : PState} {sid : String} (cid : String)
    (h : alookup st.s2c sid = none) :
    alookup (cleanupConnection st cid).s2c sid = none := by
  unfold cleanupConnection
  cases hc : alookup st.active cid with
  | none => exact h
  | some conn =>
      simp only [alookup_aeraseAll]
      split <;> simp [h]

/-- After cleaning up the connection a session maps to, the session is gone
from the table. -/
theorem cleanup_s2c_self {st : PState} {sid cid : String}
    (h : InvT st.active st.s2c) (hm : alookup st.s2c sid = some cid) :
    alookup (cleanupConnection st cid).s2c sid = none := by
  obtain ⟨conn, hc, hmem⟩ := h.s2cSound sid cid hm
  unfold cleanupConnection
  rw [hc]
  simp [alookup_aeraseAll, hmem]

/-- Registration of a fresh connection under an unused connection id for an
unmapped session preserves the invariant. -/
theorem InvT_register {st : PState} {sid cid : String}
    (caps : ServerCapabilities) (now : Nat)
    (hcid : cid = sid ∨ cid = globalConnectionId)
    (hs2c : alookup st.s2c sid = none)
    (hact : alookup st.active cid = none)
    (h : InvT st.active st.s2c) :
    InvT (register st sid cid caps now).st.active (register st sid cid caps now).st.s2c := by
  show InvT (ainsert st.active cid (freshConn sid caps now)) (ainsert st.s2c sid cid)
  constructor
  · intro s c hsc
    rw [alookup_ainsert] at hsc
    by_cases he : s = sid
    · subst he
      rw [if_pos rfl] at hsc
      obtain rfl : cid = c := Option.some_inj.mp hsc
      refine ⟨freshConn s caps now, ?_, ?_⟩
      · rw [alookup_ainsert, if_pos rfl]
      · simp [freshConn]
    · rw [if_neg he] at hsc
      obtain ⟨c2, hc2, hm⟩ := h.s2cSound s c hsc
      by_cases hcc : c = cid
      · subst hcc; rw [hact] at hc2; cases hc2
      · exact ⟨c2, by rw [alookup_ainsert, if_neg hcc]; exact hc2, hm⟩
  · intro c cx hcx s hs
    rw [alookup_ainsert] at hcx
    rw [alookup_ainsert]
    by_cases hcc : c = cid
    · subst hcc
      rw [if_pos rfl] at hcx
      obtain rfl : freshConn sid caps now = cx := Option.some_inj.mp hcx
      simp only [freshConn, List.mem_singleton] at hs
      subst hs
      rw [if_pos rfl]
    · rw [if_neg hcc] at hcx
      have hmap := h.sessionsSound c cx hcx s hs
      by_cases hss : s = sid
      · subst hss; rw [hs2c] at hmap; cases hmap
      · rw [if_neg hss]; exact hmap
  · intro c cx hcx hne
    rw [alookup_ainsert] at hcx
    by_cases hcc : c = cid
    · subst hcc
      rw [if_pos rfl] at hcx
      obtain rfl : freshConn sid caps now = cx := Option.some_inj.mp hcx
      rcases hcid with h1 | h1
      · simp [freshConn, h1]
      · exact absurd h1 hne
    · rw [if_neg hcc] at hcx
      exact h.ownSession c cx hcx hne
  · intro c cx hcx
    rw [alookup_ainsert] at hcx
    by_cases hcc : c = cid
    · subst hcc
      rw [if_pos rfl] at hcx
      obtain rfl : freshConn sid caps now = cx := Option.some_inj.mp hcx
      rfl
    · rw [if_neg hcc] at hcx
      exact h.noCloseActions c cx hcx

/-- The new-connection block preserves the invariant, provided the session
is unmapped and no global connection is registered. -/
theorem InvT_newConnection {st : PState} {sid : String}
    (up : UpstreamOutcome) (now : Nat)
    (hs2c : alookup st.s2c sid = none)
    (hglob : alookup st.active globalConnectionId = none)
    (h : InvT st.active st.s2c) :
    InvT (newConnection st sid up now).st.active (newConnection st sid up now).st.s2c := by
  cases up with
  | connectFail msg => exact h
  | initOk caps =>
      have hact : alookup st.active sid = none := by
        cases hx : alookup st.active sid with
        | none => rfl
        | some c0 =>
            by_cases hg : sid = globalConnectionId
            · rw [hg, hglob] at hx; cases hx
            · have hmem := h.ownSession sid c0 hx hg
              have := h.sessionsSound sid c0 hx sid hmem
              rw [hs2c] at this
              cases this
      exact InvT_register caps now (Or.inl rfl) hs2c hact h
  | initErr msg =>
      simp only [newConnection]
      by_cases hmsg : strIncludes msg "Server already initialized" = true
      · rw [if_pos hmsg]
        exact InvT_register defaultGlobalCapabilities now (Or.inr rfl) hs2c hglob h
      · rw [if_neg hmsg]
        exact h

/-- The connection value stored by the global-reuse branch. -/
def globalReuseConn (g : ProxyConnection) (sid : String) (now : Nat) : ProxyConnection :=
  { g with sessionIds := insertSes sid g.sessionIds, lastUsed := now }

/-! ### Branch equations for the initialize path -/

theorem afterExisting_none {st : PState} {sid : String} {up : UpstreamOutcome} {now : Nat}
    (hg : alookup st.active globalConnectionId = none) :
    afterExisting st sid up now = newConnection st sid up now := by
  unfold afterExisting
  simp only [hg]

theorem afterExisting_invalid {st : PState} {sid : String} {up : UpstreamOutcome} {now : Nat}
    {g : ProxyConnection}
    (hg : alookup st.active globalConnectionId = some g)
    (hv : validateConnection g = false) :
    afterExisting st sid up now =
      newConnection (cleanupConnection st globalConnectionId) sid up now := by
  unfold afterExisting
  simp only [hg, hv]
  rfl

theorem afterExisting_valid {st : PState} {sid : String} {up : UpstreamOutcome} {now : Nat}
    {g : ProxyConnection}
    (hg : alookup st.active globalConnectionId = some g)
    (hv : validateConnection g = true) :
    afterExisting st sid up now =
      { st := { st with
          s2c := ainsert st.s2c sid globalConnectionId
          active := ainsert st.active globalConnectionId (globalReuseConn g sid now) }
        resp := transportDispatch, ret := true, ranInitBody := true
        clientCloseCalls := 0, localConnState := none } := by
  unfold afterExisting
  simp only [hg, hv, if_true]
  rfl

theorem newConnection_already {st : PState} {sid msg : String} {now : Nat}
    (hmsg : strIncludes msg "Server already initialized" = true) :
    newConnection st sid (.initErr msg) now =
      register st sid globalConnectionId defaultGlobalCapabilities now := by
  simp only [newConnection, hmsg, if_true]

theorem newConnection_otherErr {st : PState} {sid msg : String} {now : Nat}
    (hmsg : strIncludes msg "Server already initialized" = false) :
    newConnection st sid (.initErr msg) now =
      { st := st
        resp := .internalFailure 500 "application/json" "Internal Server Error"
          "Failed to handle streamable HTTP proxy request" msg
        ret := true, ranInitBody := true, clientCloseCalls := 2
        localConnState := some ConnectionState.error } := by
  simp only [newConnection, hmsg]
  rfl

theorem initTry_no_mapping {st : PState} {sid : String} {up : UpstreamOutcome} {now : Nat}
    (hs2c : alookup st.s2c sid = none) :
    initTry st sid up now = afterExisting st sid up now := by
  unfold initTry
  simp only [hs2c]

theorem initBody_no_mapping {st : PState} {sid : String} {up : UpstreamOutcome} {now : Nat}
    (hs2c : alookup st.s2c sid = none) :
    initBody st sid up now =
      finishInit sid
        (afterExisting { st with initializing := insertSes sid st.initializing } sid up now) := by
  unfold initBody
  rw [initTry_no_mapping]
  exact hs2c

theorem handleInitialize_no_mapping {st : PState} {header : Option String}
    {minted sid : String} {up : UpstreamOutcome} {now : Nat}
    (hsid : header.getD minted = sid)
    (hs2c : alookup st.s2c sid = none) :
    handleInitialize st header minted up now = initBody st sid up now := by
  unfold handleInitialize
  rw [hsid]
  by_cases hmem : sid ∈ st.initializing
  · simp only [hmem, if_true, hs2c]
  · simp only [hmem, if_false]

/-- The global-reuse check preserves the invariant, provided the session is
unmapped. -/
theorem InvT_afterExisting {st : PState} {sid : String}
    (up : UpstreamOutcome) (now : Nat)
    (hs2c : alookup st.s2c sid = none)
    (h : InvT st.active st.s2c) :
    InvT (afterExisting st sid up now).st.active (afterExisting st sid up now).st.s2c := by
  cases hg : alookup st.active globalConnectionId with
  | none =>
      rw [afterExisting_none hg]
      exact InvT_newConnection up now hs2c hg h
  | some g =>
      cases hv : validateConnection g with
      | false =>
          rw [afterExisting_invalid hg hv]
          have h2 := InvT_cleanup st globalConnectionId h
          exact InvT_newConnection up now
            (cleanup_s2c_none globalConnectionId hs2c)
            (cleanup_active_self st globalConnectionId) h2
      | true =>
          rw [afterExisting_valid hg hv]
          show InvT
            (ainsert st.active globalConnectionId (globalReuseConn g sid now))
            (ainsert st.s2c sid globalConnectionId)
          constructor
          · intro s c hsc
            rw [alookup_ainsert] at hsc
            by_cases he : s = sid
            · subst he
              rw [if_pos rfl] at hsc
              obtain rfl : globalConnectionId = c := Option.some_inj.mp hsc
              refine ⟨globalReuseConn g s now, ?_, ?_⟩
              · rw [alookup_ainsert, if_pos rfl]
              · simp [globalReuseConn, mem_insertSes]
            · rw [if_neg he] at hsc
              obtain ⟨c2, hc2, hm⟩ := h.s2cSound s c hsc
              by_cases hcc : c = globalConnectionId
              · subst hcc
                rw [hc2] at hg
                obtain rfl : c2 = g := Option.some_inj.mp hg
                refine ⟨globalReuseConn c2 sid now, ?_, ?_⟩
                · rw [alookup_ainsert, if_pos rfl]
                · simp only [globalReuseConn, mem_insertSes]
                  exact Or.inr hm
              · exact ⟨c2, by rw [alookup_ainsert, if_neg hcc]; exact hc2, hm⟩
          · intro c cx hcx s hs
            rw [alookup_ainsert] at hcx
            rw [alookup_ainsert]
            by_cases hcc : c = globalConnectionId
            · subst hcc
              rw [if_pos rfl] at hcx
              obtain rfl : globalReuseConn g sid now = cx := Option.some_inj.mp hcx
              simp only [globalReuseConn, mem_insertSes] at hs
              rcases hs with rfl | hs
              · rw [if_pos rfl]
              · have hmap := h.sessionsSound globalConnectionId g hg s hs
                by_cases hss : s = sid
                · subst hss; rw [hs2c] at hmap; cases hmap
                · rw [if_neg hss]; exact hmap
            · rw [if_neg hcc] at hcx
              have hmap := h.sessionsSound c cx hcx s hs
              by_cases hss : s = sid
              · subst hss; rw [hs2c] at hmap; cases hmap
              · rw [if_neg hss]; exact hmap
          · intro c cx hcx hne
            rw [alookup_ainsert] at hcx
            by_cases hcc : c = globalConnectionId
            · exact absurd hcc hne
            · rw [if_neg hcc] at hcx
              exact h.ownSession c cx hcx hne
          · intro c cx hcx
            rw [alookup_ainsert] at hcx
            by_cases hcc : c = globalConnectionId
            · subst hcc
              rw [if_pos rfl] at hcx
              obtain rfl : globalReuseConn g sid now = cx := Option.some_inj.mp hcx
              have := h.noCloseActions globalConnectionId g hg
              simpa [globalReuseConn] using this
            · rw [if_neg hcc] at hcx
              exact h.noCloseActions c cx hcx

/-! ### Remaining branch equations and preservation of the invariant -/

theorem initTry_reuse_valid {st : PState} {sid ecid : String} {conn : ProxyConnection}
    {up : UpstreamOutcome} {now : Nat}
    (hm : alookup st.s2c sid = some ecid)
    (hc : alookup st.active ecid = some conn)
    (hv : validateConnection conn = true) :
    initTry st sid up now =
      { st := { st with active := ainsert st.active ecid { conn with lastUsed := now } }
        resp := transportDispatch, ret := true, ranInitBody := true
        clientCloseCalls := 0, localConnState := none } := by
  unfold initTry
  simp only [hm, hc, hv, if_true]

theorem initTry_reuse_invalid {st : PState} {sid ecid : String} {conn : ProxyConnection}
    {up : UpstreamOutcome} {now : Nat}
    (hm : alookup st.s2c sid = some ecid)
    (hc : alookup st.active ecid = some conn)
    (hv : validateConnection conn = false) :
    initTry st sid up now = afterExisting (cleanupConnection st ecid) sid up now := by
  unfold initTry
  simp only [hm, hc, hv]
  rfl

/-- The body of the initialize `try` preserves the invariant. -/
theorem InvT_initTry {st : PState} {sid : String} (up : UpstreamOutcome) (now : Nat)
    (h : InvT st.active st.s2c) :
    InvT (initTry st sid up now).st.active (initTry st sid up now).st.s2c := by
  cases hm : alookup st.s2c sid with
  | none =>
      rw [initTry_no_mapping hm]
      exact InvT_afterExisting up now hm h
  | some ecid =>
      obtain ⟨conn, hc, hmem⟩ := h.s2cSound sid ecid hm
      cases hv : validateConnection conn with
      | true =>
          rw [initTry_reuse_valid hm hc hv]
          show InvT (ainsert st.active ecid { conn with lastUsed := now }) st.s2c
          exact InvT_bump hc rfl rfl h
      | false =>
          rw [initTry_reuse_invalid hm hc hv]
          exact InvT_afterExisting up now (cleanup_s2c_self h hm) (InvT_cleanup st ecid h)

/-- The full initialize body preserves the invariant. -/
theorem InvT_initBody {st : PState} {sid : String} (up : UpstreamOutcome) (now : Nat)
    (h : InvT st.active st.s2c) :
    InvT (initBody st sid up now).st.active (initBody st sid up now).st.s2c := by
  show InvT
    (initTry { st with initializing := insertSes sid st.initializing } sid up now).st.active
    (initTry { st with initializing := insertSes sid st.initializing } sid up now).st.s2c
  exact InvT_initTry up now h

theorem handleInitialize_guard_hit {st : PState} {header : Option String}
    {minted cid : String} {conn : ProxyConnection} {up : UpstreamOutcome} {now : Nat}
    (hmem : header.getD minted ∈ st.initializing)
    (hm : alookup st.s2c (header.getD minted) = some cid)
    (hc : alookup st.active cid = some conn) :
    handleInitialize st header minted up now =
      { st := { st with active := ainsert st.active cid { conn with lastUsed := now } }
        resp := transportDispatch, ret := true, ranInitBody := false
        clientCloseCalls := 0, localConnState := none } := by
  unfold handleInitialize
  rw [if_pos hmem]
  simp only [hm, hc]

theorem handleInitialize_guard_dangling {st : PState} {header : Option String}
    {minted cid : String} {up : UpstreamOutcome} {now : Nat}
    (hmem : header.getD minted ∈ st.initializing)
    (hm : alookup st.s2c (header.getD minted) = some cid)
    (hc : alookup st.active cid = none) :
    handleInitialize st header minted up now = initBody st (header.getD minted) up now := by
  unfold handleInitialize
  rw [if_pos hmem]
  simp only [hm, hc]

/-- The initialize branch of the handler preserves the invariant. -/
theorem InvT_handleInitialize {st : PState} {header : Option String} {minted : String}
    (up : UpstreamOutcome) (now : Nat)
    (h : InvT st.active st.s2c) :
    InvT (handleInitialize st header minted up now).st.active
      (handleInitialize st header minted up now).st.s2c := by
  by_cases hmem : header.getD minted ∈ st.initializing
  · cases hm : alookup st.s2c (header.getD minted) with
    | none =>
        rw [handleInitialize_no_mapping rfl hm]
        exact InvT_initBody up now h
    | some cid =>
        cases hc : alookup st.active cid with
        | none =>
            rw [handleInitialize_guard_dangling hmem hm hc]
            exact InvT_initBody up now h
        | some conn =>
            rw [handleInitialize_guard_hit hmem hm hc]
            show InvT (ainsert st.active cid { conn with lastUsed := now }) st.s2c
            exact InvT_bump hc rfl rfl h
  · have : handleInitialize st header minted up now = initBody st (header.getD minted) up now := by
      unfold handleInitialize
      rw [if_neg hmem]
    rw [this]
    exact InvT_initBody up now h

/-! ### Branch equations for the handler dispatch -/

theorem handle_options {st : PState} {req : Request} {minted : String}
    {up : UpstreamOutcome} {now : Nat} (hop : req.method = "OPTIONS") :
    handle st req minted up now =
      { st := st, resp := .noContent, ret := true, ranInitBody := false
        clientCloseCalls := 0, localConnState := none } := by
  unfold handle
  rw [if_pos hop]

theorem handle_init {st : PState} {req : Request} {minted : String}
    {up : UpstreamOutcome} {now : Nat}
    (hop : req.method ≠ "OPTIONS") (hin : req.isInit = true) :
    handle st req minted up now = handleInitialize st req.sessionIdHeader minted up now := by
  unfold handle
  rw [if_neg hop, if_pos hin]

theorem handle_no_header {st : PState} {req : Request} {minted : String}
    {up : UpstreamOutcome} {now : Nat}
    (hop : req.method ≠ "OPTIONS") (hin : req.isInit = false)
    (hh : req.sessionIdHeader = none) :
    handle st req minted up now =
      { st := st, resp := missingSessionResp, ret := true, ranInitBody := false
        clientCloseCalls := 0, localConnState := none } := by
  unfold handle
  rw [if_neg hop]
  simp only [hin, hh]
  rfl

theorem handle_unknown_session {st : PState} {req : Request} {minted hdr : String}
    {up : UpstreamOutcome} {now : Nat}
    (hop : req.method ≠ "OPTIONS") (hin : req.isInit = false)
    (hh : req.sessionIdHeader = some hdr)
    (hm : alookup st.s2c hdr = none) :
    handle st req minted up now =
      { st := st, resp := sessionNotFoundResp, ret := true, ranInitBody := false
        clientCloseCalls := 0, localConnState := none } := by
  unfold handle
  rw [if_neg hop]
  simp only [hin, hh, hm]
  rfl

theorem handle_dangling_session {st : PState} {req : Request} {minted hdr cid : String}
    {up : UpstreamOutcome} {now : Nat}
    (hop : req.method ≠ "OPTIONS") (hin : req.isInit = false)
    (hh : req.sessionIdHeader = some hdr)
    (hm : alookup st.s2c hdr = some cid)
    (hc : alookup st.active cid = none) :
    handle st req minted up now =
      { st := st, resp := sessionNotFoundResp, ret := true, ranInitBody := false
        clientCloseCalls := 0, localConnState := none } := by
  unfold handle
  rw [if_neg hop]
  simp only [hin, hh, hm, hc]
  rfl

theorem handle_valid_session {st : PState} {req : Request} {minted hdr cid : String}
    {conn : ProxyConnection} {up : UpstreamOutcome} {now : Nat}
    (hop : req.method ≠ "OPTIONS") (hin : req.isInit = false)
    (hh : req.sessionIdHeader = some hdr)
    (hm : alookup st.s2c hdr = some cid)
    (hc : alookup st.active cid = some conn)
    (hv : validateConnection conn = true) :
    handle st req minted up now =
      { st := { st with active := ainsert st.active cid { conn with lastUsed := now } }
        resp := transportDispatch, ret := true, ranInitBody := false
        clientCloseCalls := 0, localConnState := none } := by
  unfold handle
  rw [if_neg hop]
  simp only [hin, hh, hm, hc, hv, if_true]
  rfl

theorem handle_invalid_session {st : PState} {req : Request} {minted hdr cid : String}
    {conn : ProxyConnection} {up : UpstreamOutcome} {now : Nat}
    (hop : req.method ≠ "OPTIONS") (hin : req.isInit = false)
    (hh : req.sessionIdHeader = some hdr)
    (hm : alookup st.s2c hdr = some cid)
    (hc : alookup st.active cid = some conn)
    (hv : validateConnection conn = false) :
    handle st req minted up now =
      { st := cleanupConnection st cid, resp := connectionLostResp
        ret := true, ranInitBody := false
        clientCloseCalls := 0, localConnState := none } := by
  unfold handle
  rw [if_neg hop]
  simp only [hin, hh, hm, hc, hv]
  rfl

/-- One invocation of the request handler preserves the invariant. -/
theorem InvT_handle {st : PState} (req : Request) (minted : String)
    (up : UpstreamOutcome) (now : Nat)
    (h : InvT st.active st.s2c) :
    InvT (handle st req minted up now).st.active (handle st req minted up now).st.s2c := by
  by_cases hop : req.method = "OPTIONS"
  · rw [handle_options hop]; exact h
  · cases hin : req.isInit with
    | true =>
        rw [handle_init hop hin]
        exact InvT_handleInitialize up now h
    | false =>
        cases hh : req.sessionIdHeader with
        | none => rw [handle_no_header hop hin hh]; exact h
        | some hdr =>
            cases hm : alookup st.s2c hdr with
            | none => rw [handle_unknown_session hop hin hh hm]; exact h
            | some cid =>
                cases hc : alookup st.active cid with
                | none => rw [handle_dangling_session hop hin hh hm hc]; exact h
                | some conn =>
                    cases hv : validateConnection conn with
                    | true =>
                        rw [handle_valid_session hop hin hh hm hc hv]
                        show InvT (ainsert st.active cid { conn with lastUsed := now }) st.s2c
                        exact InvT_bump hc rfl rfl h
                    | false =>
                        rw [handle_invalid_session hop hin hh hm hc hv]
                        show InvT (cleanupConnection st cid).active (cleanupConnection st cid).s2c
                        exact InvT_cleanup st cid h

/-- Folding cleanup over any list of connection ids preserves the invariant. -/
theorem InvT_foldl_cleanup (ks : List String) :
    ∀ st : PState, InvT st.active st.s2c →
      InvT ((ks.foldl cleanupConnection st)).active ((ks.foldl cleanupConnection st)).s2c := by
  induction ks with
  | nil => intro st h; exact h
  | cons a tl ih =>
      intro st h
      exact ih (cleanupConnection st a) (InvT_cleanup st a h)

/-- The periodic sweep preserves the invariant. -/
theorem InvT_sweep {st : PState} (now : Nat) (h : InvT st.active st.s2c) :
    InvT (sweep st now).active (sweep st now).s2c := by
  unfold sweep
  by_cases ht : st.timerOn = true
  · rw [if_pos ht]
    exact InvT_foldl_cleanup _ st h
  · rw [if_neg ht]
    exact h

/-- Folding cleanup over a list of keys removes every key in the list and
adds none. -/
theorem foldl_cleanup_none (ks : List String) :
    ∀ (st : PState) (c : String),
      (alookup st.active c = none ∨ c ∈ ks) →
      alookup ((ks.foldl cleanupConnection st).active) c = none := by
  induction ks with
  | nil =>
      intro st c h
      rcases h with h | h
      · exact h
      · cases h
  | cons a tl ih =>
      intro st c h
      show alookup ((tl.foldl cleanupConnection (cleanupConnection st a)).active) c = none
      by_cases hca : c = a
      · subst hca
        exact ih (cleanupConnection st c) c (Or.inl (cleanup_active_self st c))
      · rcases h with h | h
        · exact ih (cleanupConnection st a) c (Or.inl (cleanup_active_none a h))
        · rcases List.mem_cons.mp h with h1 | h1
          · exact absurd h1 hca
          · exact ih (cleanupConnection st a) c (Or.inr h1)

/-- After forced cleanup the connection table is empty. -/
theorem forced_active_none (st : PState) (c : String) :
    alookup (forceCleanupAllConnections st).active c = none := by
  show alookup
    (((({ st with timerOn := false } : PState).active.map Prod.fst).foldl
      cleanupConnection { st with timerOn := false }).active) c = none
  apply foldl_cleanup_none
  cases hx : alookup ({ st with timerOn := false } : PState).active c with
  | none => exact Or.inl rfl
  | some v => exact Or.inr (mem_keys_of_alookup_some hx)

/-- Forced cleanup re-establishes the invariant from nothing. -/
theorem InvT_forced (st : PState) :
    InvT (forceCleanupAllConnections st).active (forceCleanupAllConnections st).s2c := by
  constructor
  · intro sid cid hsc
    cases hsc
  · intro cid conn hcx
    rw [forced_active_none st cid] at hcx
    cases hcx
  · intro cid conn hcx
    rw [forced_active_none st cid] at hcx
    cases hcx
  · intro cid conn hcx
    rw [forced_active_none st cid] at hcx
    cases hcx

/-- Closing a server transport is a no-op on states whose connections carry
no close callbacks; in particular it preserves the invariant. -/
theorem serverTransportClosed_eq {st : PState} (cid sid : String)
    (h : InvT st.active st.s2c) :
    serverTransportClosed st cid sid = st := by
  cases hc : alookup st.active cid with
  | none =>
      unfold serverTransportClosed
      simp only [hc]
  | some conn =>
      unfold serverTransportClosed
      simp only [hc, h.noCloseActions cid conn hc]
      rfl

/-- Every event preserves the invariant. -/
theorem InvT_stepEv {st : PState} (e : Ev) (h : InvT st.active st.s2c) :
    InvT (stepEv st e).active (stepEv st e).s2c := by
  cases e with
  | req r m u n => exact InvT_handle r m u n h
  | sweepTick n => exact InvT_sweep n h
  | forced => exact InvT_forced st
  | closed c s =>
      show InvT (serverTransportClosed st c s).active (serverTransportClosed st c s).s2c
      rw [serverTransportClosed_eq c s h]
      exact h
  | cleanup c => exact InvT_cleanup st c h

/-- Every reachable state satisfies the invariant. -/
theorem InvT_reach : ∀ {st : PState}, Reach st → InvT st.active st.s2c := by
  intro st h
  induction h with
  | init => exact InvT_init0
  | step h e ih => exact InvT_stepEv e ih

/-! ## The proxy bridge (`proxyServer.ts`) -/

/-- The request-handler kinds `proxyServer` can install on the local server;
each installed handler delegates to the client call of the same name. -/
inductive ReqHandlerKind
  | getPrompt
  | listPrompts
  | listResources
  | listResourceTemplates
  | readResource
  | subscribeResource
  | unsubscribeResource
  | callTool
  | listTools
  | complete
deriving DecidableEq

/-- The notification kinds the bridge can relay. -/
inductive NotifKind
  | loggingMessage
  | resourceUpdated
deriving DecidableEq

/-- The handler registrations `proxyServer` performs.
`serverRequestHandlers` are `server.setRequestHandler` entries delegating to
the correspondingly named `client` call; `serverNotificationHandlers` are
`server.setNotificationHandler` entries forwarding to `client.notification`
(downstream to upstream); `clientNotificationHandlers` are
`client.setNotificationHandler` entries forwarding to `server.notification`
(upstream to downstream). -/
structure Bridge where
  serverRequestHandlers : List ReqHandlerKind
  serverNotificationHandlers : List NotifKind
  clientNotificationHandlers : List NotifKind
deriving DecidableEq

/-- Source `proxyServer` (`proxyServer.ts` lines 19-149), transcribed block
by block in source order: logging installs the loggingMessage relay on both
sides; prompts, resources, tools install their request handlers; inside the
resources block, `resources.subscribe` additionally installs the
resourceUpdated relay on the server side only (forwarding to
`client.notification`) plus the subscribe and unsubscribe request handlers;
the complete handler is always installed. -/
def proxyServer (caps : ServerCapabilities) : Bridge :=
  { serverRequestHandlers :=
      (if caps.prompts then [.getPrompt, .listPrompts] else []) ++
      (if caps.resources then
        [.listResources, .listResourceTemplates, .readResource] ++
        (if caps.resourcesSubscribe then [.subscribeResource, .unsubscribeResource] else [])
       else []) ++
      (if caps.tools then [.callTool, .listTools] else []) ++
      [.complete]
    serverNotificationHandlers :=
      (if caps.logging then [.loggingMessage] else []) ++
      (if caps.resources && caps.resourcesSubscribe then [.resourceUpdated] else [])
    clientNotificationHandlers :=
      if caps.logging then [.loggingMessage] else [] }

/-! ## Statements of the verified properties -/

/-- The consistency property of claim C3: the sessions recorded in
`sessionToConnection` are exactly those appearing in some active
connection's `sessionIds`, and every mapped connection id is active. -/
def TablesConsistent (st : PState) : Prop :=
  (∀ sid, (alookup st.s2c sid).isSome ↔
    ∃ cid conn, alookup st.active cid = some conn ∧ sid ∈ conn.sessionIds) ∧
  (∀ sid cid, alookup st.s2c sid = some cid → (alookup st.active cid).isSome)

theorem TablesConsistent_of_InvT {st : PState} (h : InvT st.active st.s2c) :
    TablesConsistent st := by
  constructor
  · intro sid
    constructor
    · intro hs
      cases hx : alookup st.s2c sid with
      | none => rw [hx] at hs; cases hs
      | some cid =>
          obtain ⟨conn, hc, hm⟩ := h.s2cSound sid cid hx
          exact ⟨cid, conn, hc, hm⟩
    · rintro ⟨cid, conn, hc, hm⟩
      rw [h.sessionsSound cid conn hc sid hm]
      rfl
  · intro sid cid hx
    obtain ⟨conn, hc, _⟩ := h.s2cSound sid cid hx
    rw [hc]
    rfl

/-- A small concrete capability set used in concrete runs. -/
def caps0 : ServerCapabilities :=
  { tools := true, resources := false, resourcesSubscribe := false
    prompts := false, logging := false }

/-- A capability set advertising `resources` with `subscribe`. -/
def subscribeCaps : ServerCapabilities :=
  { tools := false, resources := true, resourcesSubscribe := true
    prompts := false, logging := false }

/-- A concrete initialize request carrying a session id header. -/
def initReqFor (sid : String) : Request :=
  { method := "POST", sessionIdHeader := some sid, isInit := true }

/-! ## Claims -/

/-- C3.  In every state reachable by any sequence of handler invocations
(initialize, subsequent dispatch, cleanupConnection, the periodic sweep,
forceCleanupAllConnections, server-transport closes), the set of keys of
`sessionToConnection` equals the union of the `sessionIds` sets over all
connections in `activeProxyConnections`, and every value of
`sessionToConnection` is a key of `activeProxyConnections`. -/
theorem c3_tables_consistent (st : PState) (h : Reach st) : TablesConsistent st :=
  TablesConsistent_of_InvT (InvT_reach h)

theorem c3_tables_consistent_witness :
    TablesConsistent (stepEv init0 (Ev.req (initReqFor "s1") "m1" (.initOk caps0) 0)) :=
  c3_tables_consistent _ (Reach.step Reach.init _)

/-- C7.  At the failing input, a capability set containing
`resources.subscribe`: the bridge does install the subscribeResource and
unsubscribeResource delegating handlers, but it installs the resourceUpdated
relay on the server side (forwarding downstream notifications to the
upstream client) and installs no resourceUpdated handler on the client side,
so upstream resourceUpdated notifications are not relayed toward the
downstream client, contradicting the claimed upstream-to-downstream
direction. -/
theorem c7_resource_updated_relay_direction :
    ReqHandlerKind.subscribeResource ∈ (proxyServer subscribeCaps).serverRequestHandlers ∧
    ReqHandlerKind.unsubscribeResource ∈ (proxyServer subscribeCaps).serverRequestHandlers ∧
    NotifKind.resourceUpdated ∈ (proxyServer subscribeCaps).serverNotificationHandlers ∧
    NotifKind.resourceUpdated ∉ (proxyServer subscribeCaps).clientNotificationHandlers := by
  decide

/-- C9 counterexample.  After a concrete initialize for session "s1", the
handler has installed no `onclose` callback on the server transport, and a
close of that server transport leaves the state unchanged: in particular
the session's entry is still in `sessionToConnection` afterwards, so the
claimed removal does not happen. -/
theorem c9_close_does_not_remove_session :
    (alookup (handle init0 (initReqFor "s1") "m1" (.initOk caps0) 0).st.active "s1").map
        (fun c => c.onCloseActions) = some [] ∧
    serverTransportClosed (handle init0 (initReqFor "s1") "m1" (.initOk caps0) 0).st "s1" "s1" =
      (handle init0 (initReqFor "s1") "m1" (.initOk caps0) 0).st ∧
    alookup (serverTransportClosed
        (handle init0 (initReqFor "s1") "m1" (.initOk caps0) 0).st "s1" "s1").s2c "s1" =
      some "s1" := by
  decide

/-- C9 amended.  The handler wires no `onClose` callback on the server
transport it creates, so in every reachable state closing a server
transport leaves the tables unchanged; sessions and connections are removed
only by `cleanupConnection` (invoked on validation failure, by the periodic
sweep, or by `forceCleanupAllConnections`). -/
theorem c9_close_is_noop (st : PState) (h : Reach st) (cid sid : String) :
    serverTransportClosed st cid sid = st :=
  serverTransportClosed_eq cid sid (InvT_reach h)

theorem c9_close_is_noop_witness :
    serverTransportClosed (stepEv init0 (Ev.req (initReqFor "s2") "m1" (.initOk caps0) 0)) "s2" "s2" =
      stepEv init0 (Ev.req (initReqFor "s2") "m1" (.initOk caps0) 0) :=
  c9_close_is_noop _ (Reach.step Reach.init _) "s2" "s2"

/-- C4 counterexample.  A state in which session "s1" is in the
initializing guard but has no registered connection yet, exactly the
situation while a first initialize for "s1" is still in flight between its
`initializingSessions.add` and its table registration.  A second initialize
arriving for "s1" in this state runs the initialize body (the
new-connection and reuse-by-owner region) anyway: the guard waits 100 ms,
finds no mapping, and proceeds, so it does not prevent the concurrent run. -/
theorem c4_guard_does_not_exclude :
    "s1" ∈ (PState.mk [] [] ["s1"] false).initializing ∧
    (handle (PState.mk [] [] ["s1"] false) (initReqFor "s1") "m1"
      (.initOk caps0) 0).ranInitBody = true := by
  decide

/-- C4 amended.  When the initializing guard already contains the session
id, the second initialize dispatches through the session's registered
connection without running the initialize body only if such a connection
exists after the 100 ms wait; if the session has no mapping, the second
initialize proceeds to run the initialize body even though the guard holds
the session id, so mutual exclusion per session id is not guaranteed. -/
theorem c4_guard_behaviour (st : PState) (req : Request) (minted sid : String)
    (up : UpstreamOutcome) (now : Nat)
    (hop : req.method ≠ "OPTIONS") (hin : req.isInit = true)
    (hsid : req.sessionIdHeader.getD minted = sid)
    (hmem : sid ∈ st.initializing) :
    (∀ cid conn, alookup st.s2c sid = some cid → alookup st.active cid = some conn →
      (handle st req minted up now).ranInitBody = false) ∧
    (alookup st.s2c sid = none →
      (handle st req minted up now).ranInitBody = true) := by
  constructor
  · intro cid conn hm hc
    rw [handle_init hop hin,
      handleInitialize_guard_hit (hsid ▸ hmem) (hsid ▸ hm) hc]
  · intro hm
    rw [handle_init hop hin, handleInitialize_no_mapping hsid hm]
    rfl

theorem c4_guard_behaviour_witness :
    ((handle (PState.mk [] [] ["s3"] false) (initReqFor "s3") "m1"
      (.initOk caps0) 0).ranInitBody = true) :=
  (c4_guard_behaviour (PState.mk [] [] ["s3"] false) (initReqFor "s3") "m1" "s3"
    (.initOk caps0) 0 (by decide) rfl rfl (by decide)).2 rfl

/-! ## Further helpers for the remaining claims -/

theorem initTry_dangling {st : PState} {sid ecid : String}
    {up : UpstreamOutcome} {now : Nat}
    (hm : alookup st.s2c sid = some ecid)
    (hc : alookup st.active ecid = none) :
    initTry st sid up now = afterExisting st sid up now := by
  unfold initTry
  simp only [hm, hc]

/-- The response category of a handler result. -/
def HResp.isInternalFailure : HResp → Bool
  | .internalFailure _ _ _ _ _ => true
  | _ => false

def HResp.isRpc : HResp → Bool
  | .rpc _ _ _ => true
  | _ => false

/-- The HTTP status the handler wrote for this response. -/
def HResp.statusOf : HResp → Nat
  | .noContent => 204
  | .dispatched s _ => s
  | .rpc s _ _ => s
  | .internalFailure s _ _ _ _ => s

/-- The Content-Type header the handler wrote, if any. -/
def HResp.contentTypeOf : HResp → Option String
  | .noContent => none
  | .dispatched _ ct => some ct
  | .rpc _ ct _ => some ct
  | .internalFailure _ ct _ _ _ => some ct

theorem register_s2c_self (st : PState) (sid cid : String)
    (caps : ServerCapabilities) (now : Nat) :
    alookup (register st sid cid caps now).st.s2c sid = some cid := by
  show alookup (ainsert st.s2c sid cid) sid = some cid
  rw [alookup_ainsert, if_pos rfl]

theorem register_active_self (st : PState) (sid cid : String)
    (caps : ServerCapabilities) (now : Nat) :
    alookup (register st sid cid caps now).st.active cid = some (freshConn sid caps now) := by
  show alookup (ainsert st.active cid (freshConn sid caps now)) cid =
    some (freshConn sid caps now)
  rw [alookup_ainsert, if_pos rfl]

theorem filter_insertSes_self {sid : String} {l : List String} (h : sid ∉ l) :
    (insertSes sid l).filter (fun x => x != sid) = l := by
  unfold insertSes
  rw [if_neg h]
  have h1 : ∀ x ∈ l, (x != sid) = true := by
    intro x hx
    have hne : x ≠ sid := fun e => h (e ▸ hx)
    simpa using hne
  calc ((sid :: l).filter fun x => x != sid)
      = l.filter (fun x => x != sid) := by simp
    _ = l := List.filter_eq_self.mpr h1

/-! ## Claim C5 -/

/-- C5.  Every non-initialize, non-preflight request carrying an
`mcp-session-id` header that maps to no connection in the tables is
answered with HTTP 200, Content-Type `application/json` and the JSON-RPC
body with `jsonrpc` "2.0", null `id` and error `-32000` "Session not
found", and the state is returned unchanged. -/
theorem c5_session_not_found (st : PState) (req : Request) (minted hdr : String)
    (up : UpstreamOutcome) (now : Nat)
    (hop : req.method ≠ "OPTIONS") (hin : req.isInit = false)
    (hh : req.sessionIdHeader = some hdr)
    (hmiss : ∀ cid, alookup st.s2c hdr = some cid → alookup st.active cid = none) :
    handle st req minted up now =
      { st := st
        resp := .rpc 200 "application/json"
          { jsonrpc := "2.0", jsonId := none
            error := { code := -32000, message := "Session not found" } }
        ret := true, ranInitBody := false
        clientCloseCalls := 0, localConnState := none } := by
  cases hm : alookup st.s2c hdr with
  | none =>
      rw [handle_unknown_session hop hin hh hm]
      rfl
  | some cid =>
      rw [handle_dangling_session hop hin hh hm (hmiss cid hm)]
      rfl

theorem c5_session_not_found_witness :
    handle init0 (Request.mk "POST" (some "deadbeef") false) "m1" (.initOk caps0) 0 =
      { st := init0
        resp := .rpc 200 "application/json"
          { jsonrpc := "2.0", jsonId := none
            error := { code := -32000, message := "Session not found" } }
        ret := true, ranInitBody := false
        clientCloseCalls := 0, localConnState := none } :=
  c5_session_not_found init0 (Request.mk "POST" (some "deadbeef") false) "m1" "deadbeef"
    (.initOk caps0) 0 (by decide) rfl rfl
    (fun cid h => Option.noConfusion h)

/-! ## Claim C6 -/

/-- C6.  `validateConnection` returns false exactly when the connection
state is not `connected`; and a non-initialize request resolving to a
connection that fails validation first runs `cleanupConnection` on it
(which removes the connection and its sessions from the tables) and then
replies HTTP 200 with JSON-RPC error `-32000` "Connection lost, please
reinitialize". -/
theorem c6_validate_and_connection_lost (conn0 : ProxyConnection) (st : PState)
    (req : Request) (minted hdr cid : String) (conn : ProxyConnection)
    (up : UpstreamOutcome) (now : Nat)
    (hop : req.method ≠ "OPTIONS") (hin : req.isInit = false)
    (hh : req.sessionIdHeader = some hdr)
    (hm : alookup st.s2c hdr = some cid)
    (hc : alookup st.active cid = some conn)
    (hv : validateConnection conn = false) :
    (validateConnection conn0 = false ↔ conn0.state ≠ ConnectionState.connected) ∧
    handle st req minted up now =
      { st := cleanupConnection st cid
        resp := .rpc 200 "application/json"
          { jsonrpc := "2.0", jsonId := none
            error := { code := -32000, message := "Connection lost, please reinitialize" } }
        ret := true, ranInitBody := false
        clientCloseCalls := 0, localConnState := none } ∧
    alookup (cleanupConnection st cid).active cid = none := by
  refine ⟨?_, ?_, cleanup_active_self st cid⟩
  · simp [validateConnection]
  · rw [handle_invalid_session hop hin hh hm hc hv]
    rfl

/-- A concrete dead connection used to instantiate claim C6. -/
def deadConn : ProxyConnection :=
  { state := ConnectionState.error, createdAt := 0, lastUsed := 0
    sessionIds := ["h1"], serverCaps := none, onCloseActions := [] }

/-- A concrete state holding only the dead connection. -/
def deadState : PState :=
  { active := [("c1", deadConn)], s2c := [("h1", "c1")], initializing := [], timerOn := true }

theorem c6_validate_and_connection_lost_witness :
    (validateConnection deadConn = false ↔ deadConn.state ≠ ConnectionState.connected) ∧
    handle deadState (Request.mk "POST" (some "h1") false) "m1" (.initOk caps0) 0 =
      { st := cleanupConnection deadState "c1"
        resp := .rpc 200 "application/json"
          { jsonrpc := "2.0", jsonId := none
            error := { code := -32000, message := "Connection lost, please reinitialize" } }
        ret := true, ranInitBody := false
        clientCloseCalls := 0, localConnState := none } ∧
    alookup (cleanupConnection deadState "c1").active "c1" = none :=
  c6_validate_and_connection_lost deadConn deadState
    (Request.mk "POST" (some "h1") false) "m1" "h1" "c1" deadConn (.initOk caps0) 0
    (by decide) rfl rfl (by decide) (by decide) (by decide)

/-! ## Claim C2 -/

/-- C2.  An initialize request whose upstream initialize round trip fails
with a message containing "Server already initialized" (for an unmapped
session, with no reusable global connection, which is the situation in
which the round trip runs) ends with a new connection registered under
"global-mcp-connection" whose state is connected and whose server
capability set is the default tools/resources/prompts/logging set, the
session mapped to it, and the request dispatched rather than answered with
an error. -/
theorem c2_already_initialized_promotes (st : PState) (req : Request)
    (minted sid msg : String) (now : Nat)
    (hop : req.method ≠ "OPTIONS") (hin : req.isInit = true)
    (hsid : req.sessionIdHeader.getD minted = sid)
    (hs2c : alookup st.s2c sid = none)
    (hglob : ∀ g, alookup st.active globalConnectionId = some g →
      validateConnection g = false)
    (hmsg : strIncludes msg "Server already initialized" = true) :
    (handle st req minted (.initErr msg) now).resp = transportDispatch ∧
    alookup (handle st req minted (.initErr msg) now).st.s2c sid =
      some globalConnectionId ∧
    alookup (handle st req minted (.initErr msg) now).st.active globalConnectionId =
      some (freshConn sid defaultGlobalCapabilities now) ∧
    (freshConn sid defaultGlobalCapabilities now).state = ConnectionState.connected ∧
    (freshConn sid defaultGlobalCapabilities now).serverCaps =
      some defaultGlobalCapabilities := by
  rw [handle_init hop hin, handleInitialize_no_mapping hsid hs2c,
    initBody_no_mapping hs2c]
  cases hg : alookup st.active globalConnectionId with
  | none =>
      have hg0 : alookup
          ({ st with initializing := insertSes sid st.initializing } : PState).active
          globalConnectionId = none := hg
      rw [afterExisting_none hg0, newConnection_already hmsg]
      exact ⟨rfl,
        register_s2c_self { st with initializing := insertSes sid st.initializing }
          sid globalConnectionId defaultGlobalCapabilities now,
        register_active_self { st with initializing := insertSes sid st.initializing }
          sid globalConnectionId defaultGlobalCapabilities now,
        rfl, rfl⟩
  | some g =>
      have hg0 : alookup
          ({ st with initializing := insertSes sid st.initializing } : PState).active
          globalConnectionId = some g := hg
      rw [afterExisting_invalid hg0 (hglob g hg), newConnection_already hmsg]
      exact ⟨rfl,
        register_s2c_self
          (cleanupConnection { st with initializing := insertSes sid st.initializing }
            globalConnectionId)
          sid globalConnectionId defaultGlobalCapabilities now,
        register_active_self
          (cleanupConnection { st with initializing := insertSes sid st.initializing }
            globalConnectionId)
          sid globalConnectionId defaultGlobalCapabilities now,
        rfl, rfl⟩

theorem c2_already_initialized_promotes_witness :
    (handle init0 (initReqFor "s9") "m1"
      (.initErr "MCP error: Server already initialized") 0).resp = transportDispatch ∧
    alookup (handle init0 (initReqFor "s9") "m1"
      (.initErr "MCP error: Server already initialized") 0).st.s2c "s9" =
      some globalConnectionId ∧
    alookup (handle init0 (initReqFor "s9") "m1"
      (.initErr "MCP error: Server already initialized") 0).st.active globalConnectionId =
      some (freshConn "s9" defaultGlobalCapabilities 0) ∧
    (freshConn "s9" defaultGlobalCapabilities 0).state = ConnectionState.connected ∧
    (freshConn "s9" defaultGlobalCapabilities 0).serverCaps =
      some defaultGlobalCapabilities :=
  c2_already_initialized_promotes init0 (initReqFor "s9") "m1" "s9"
    "MCP error: Server already initialized" 0
    (by decide) rfl rfl rfl (fun g hg => Option.noConfusion hg) (by decide)

/-! ## Claim C8 -/

/-- C8 counterexample.  A concrete initialize whose upstream connect fails:
the handler answers with the HTTP 500 diagnostic object (fields `error`,
`message`, `details`), not with a JSON-RPC error envelope and not with
HTTP 200, so the failure does not surface "as a JSON-RPC error on the
initialize response" as claimed. -/
theorem c8_failure_is_500_not_jsonrpc :
    (handle init0 (initReqFor "s1") "m1" (.connectFail "ECONNREFUSED") 0).resp =
      .internalFailure 500 "application/json" "Internal Server Error"
        "Failed to handle streamable HTTP proxy request" "ECONNREFUSED" ∧
    (handle init0 (initReqFor "s1") "m1" (.connectFail "ECONNREFUSED") 0).resp.isRpc =
      false ∧
    (handle init0 (initReqFor "s1") "m1" (.connectFail "ECONNREFUSED") 0).resp.statusOf =
      500 := by
  decide

/-- C8 amended.  An initialize whose upstream connect or initialize round
trip fails with an error not matching "Server already initialized" (for an
unmapped, non-initializing session with no registered global connection)
leaves the tables exactly unchanged, closes the upstream client at least
once, leaves the local connection object in the error state, and surfaces
the failure as the HTTP 500 `Internal Server Error` JSON diagnostic written
by the outer catch rather than as a JSON-RPC error envelope. -/
theorem c8_other_error_surfaces_500 (st : PState) (req : Request)
    (minted sid msg : String) (up : UpstreamOutcome) (now : Nat)
    (hop : req.method ≠ "OPTIONS") (hin : req.isInit = true)
    (hsid : req.sessionIdHeader.getD minted = sid)
    (hs2c : alookup st.s2c sid = none)
    (hmem : sid ∉ st.initializing)
    (hglob : alookup st.active globalConnectionId = none)
    (herr : up = .connectFail msg ∨
      (up = .initErr msg ∧ strIncludes msg "Server already initialized" = false)) :
    (handle st req minted up now).st = st ∧
    (handle st req minted up now).resp =
      .internalFailure 500 "application/json" "Internal Server Error"
        "Failed to handle streamable HTTP proxy request" msg ∧
    1 ≤ (handle st req minted up now).clientCloseCalls ∧
    (handle st req minted up now).localConnState = some ConnectionState.error ∧
    (handle st req minted up now).ret = true := by
  rw [handle_init hop hin, handleInitialize_no_mapping hsid hs2c,
    initBody_no_mapping hs2c]
  have hg0 : alookup
      ({ st with initializing := insertSes sid st.initializing } : PState).active
      globalConnectionId = none := hglob
  rw [afterExisting_none hg0]
  have hstate :
      ({ st with initializing :=
        (insertSes sid st.initializing).filter (fun x => x != sid) } : PState) = st := by
    rw [filter_insertSes_self hmem]
  rcases herr with rfl | ⟨rfl, hm2⟩
  · exact ⟨hstate, rfl, Nat.le_refl 1, rfl, rfl⟩
  · rw [newConnection_otherErr hm2]
    exact ⟨hstate, rfl, Nat.le_succ 1, rfl, rfl⟩

theorem c8_other_error_surfaces_500_witness :
    (handle init0 (initReqFor "s1") "m1" (.initErr "connection refused") 0).st = init0 ∧
    (handle init0 (initReqFor "s1") "m1" (.initErr "connection refused") 0).resp =
      .internalFailure 500 "application/json" "Internal Server Error"
        "Failed to handle streamable HTTP proxy request" "connection refused" ∧
    1 ≤ (handle init0 (initReqFor "s1") "m1" (.initErr "connection refused") 0).clientCloseCalls ∧
    (handle init0 (initReqFor "s1") "m1" (.initErr "connection refused") 0).localConnState =
      some ConnectionState.error ∧
    (handle init0 (initReqFor "s1") "m1" (.initErr "connection refused") 0).ret = true :=
  c8_other_error_surfaces_500 init0 (initReqFor "s1") "m1" "s1" "connection refused"
    (.initErr "connection refused") 0 (by decide) rfl rfl rfl (by decide) rfl
    (Or.inr ⟨rfl, by decide⟩)

/-! ## Claim C10 -/

/-- A handler result is well behaved when it reports `true` to the HTTP
front end and, if it is the internal-failure response, it was written as
HTTP 500 with a JSON content type. -/
def GoodResult (r : HandleResult) : Prop :=
  r.ret = true ∧
  (r.resp.isInternalFailure = true →
    r.resp.statusOf = 500 ∧ r.resp.contentTypeOf = some "application/json")

theorem good_register (st : PState) (sid cid : String)
    (caps : ServerCapabilities) (now : Nat) :
    GoodResult (register st sid cid caps now) :=
  ⟨rfl, fun h => Bool.noConfusion h⟩

theorem good_newConnection (st : PState) (sid : String)
    (up : UpstreamOutcome) (now : Nat) :
    GoodResult (newConnection st sid up now) := by
  cases up with
  | connectFail msg => exact ⟨rfl, fun _ => ⟨rfl, rfl⟩⟩
  | initOk caps => exact good_register st sid sid caps now
  | initErr msg =>
      by_cases hmsg : strIncludes msg "Server already initialized" = true
      · rw [newConnection_already hmsg]
        exact good_register st sid globalConnectionId defaultGlobalCapabilities now
      · rw [newConnection_otherErr (Bool.not_eq_true _ ▸ hmsg)]
        exact ⟨rfl, fun _ => ⟨rfl, rfl⟩⟩

theorem good_afterExisting (st : PState) (sid : String)
    (up : UpstreamOutcome) (now : Nat) :
    GoodResult (afterExisting st sid up now) := by
  cases hg : alookup st.active globalConnectionId with
  | none =>
      rw [afterExisting_none hg]
      exact good_newConnection st sid up now
  | some g =>
      cases hv : validateConnection g with
      | true =>
          rw [afterExisting_valid hg hv]
          exact ⟨rfl, fun h => Bool.noConfusion h⟩
      | false =>
          rw [afterExisting_invalid hg hv]
          exact good_newConnection (cleanupConnection st globalConnectionId) sid up now

theorem good_initTry (st : PState) (sid : String)
    (up : UpstreamOutcome) (now : Nat) :
    GoodResult (initTry st sid up now) := by
  cases hm : alookup st.s2c sid with
  | none =>
      rw [initTry_no_mapping hm]
      exact good_afterExisting st sid up now
  | some ecid =>
      cases hc : alookup st.active ecid with
      | none =>
          rw [initTry_dangling hm hc]
          exact good_afterExisting st sid up now
      | some conn =>
          cases hv : validateConnection conn with
          | true =>
              rw [initTry_reuse_valid hm hc hv]
              exact ⟨rfl, fun h => Bool.noConfusion h⟩
          | false =>
              rw [initTry_reuse_invalid hm hc hv]
              exact good_afterExisting (cleanupConnection st ecid) sid up now

theorem good_finishInit (sid : String) (r : HandleResult) (h : GoodResult r) :
    GoodResult (finishInit sid r) :=
  h

theorem good_initBody (st : PState) (sid : String)
    (up : UpstreamOutcome) (now : Nat) :
    GoodResult (initBody st sid up now) :=
  good_finishInit sid _
    (good_initTry { st with initializing := insertSes sid st.initializing } sid up now)

theorem good_handleInitialize (st : PState) (header : Option String) (minted : String)
    (up : UpstreamOutcome) (now : Nat) :
    GoodResult (handleInitialize st header minted up now) := by
  by_cases hmem : header.getD minted ∈ st.initializing
  · cases hm : alookup st.s2c (header.getD minted) with
    | none =>
        rw [handleInitialize_no_mapping rfl hm]
        exact good_initBody st (header.getD minted) up now
    | some cid =>
        cases hc : alookup st.active cid with
        | none =>
            rw [handleInitialize_guard_dangling hmem hm hc]
            exact good_initBody st (header.getD minted) up now
        | some conn =>
            rw [handleInitialize_guard_hit hmem hm hc]
            exact ⟨rfl, fun h => Bool.noConfusion h⟩
  · have heq : handleInitialize st header minted up now =
        initBody st (header.getD minted) up now := by
      unfold handleInitialize
      rw [if_neg hmem]
    rw [heq]
    exact good_initBody st (header.getD minted) up now

/-- C10.  The handler reports `true` to the HTTP front end on every
execution path, and whenever its response is the internal-failure
diagnostic of the outer catch, that response was written with HTTP status
500 and Content-Type `application/json`; it never returns `false`, so once
invoked it always answers the HTTP request itself. -/
theorem c10_always_returns_true (st : PState) (req : Request) (minted : String)
    (up : UpstreamOutcome) (now : Nat) :
    (handle st req minted up now).ret = true ∧
    ((handle st req minted up now).resp.isInternalFailure = true →
      (handle st req minted up now).resp.statusOf = 500 ∧
      (handle st req minted up now).resp.contentTypeOf = some "application/json") := by
  by_cases hop : req.method = "OPTIONS"
  · rw [handle_options hop]
    exact ⟨rfl, fun h => Bool.noConfusion h⟩
  · cases hin : req.isInit with
    | true =>
        rw [handle_init hop hin]
        exact good_handleInitialize st req.sessionIdHeader minted up now
    | false =>
        cases hh : req.sessionIdHeader with
        | none =>
            rw [handle_no_header hop hin hh]
            exact ⟨rfl, fun h => Bool.noConfusion h⟩
        | some hdr =>
            cases hm : alookup st.s2c hdr with
            | none =>
                rw [handle_unknown_session hop hin hh hm]
                exact ⟨rfl, fun h => Bool.noConfusion h⟩
            | some cid =>
                cases hc : alookup st.active cid with
                | none =>
                    rw [handle_dangling_session hop hin hh hm hc]
                    exact ⟨rfl, fun h => Bool.noConfusion h⟩
                | some conn =>
                    cases hv : validateConnection conn with
                    | true =>
                        rw [handle_valid_session hop hin hh hm hc hv]
                        exact ⟨rfl, fun h => Bool.noConfusion h⟩
                    | false =>
                        rw [handle_invalid_session hop hin hh hm hc hv]
                        exact ⟨rfl, fun h => Bool.noConfusion h⟩

theorem c10_always_returns_true_witness :
    (handle init0 (initReqFor "s1") "m1" (.connectFail "boom") 0).ret = true ∧
    ((handle init0 (initReqFor "s1") "m1" (.connectFail "boom") 0).resp.statusOf = 500 ∧
     (handle init0 (initReqFor "s1") "m1" (.connectFail "boom") 0).resp.contentTypeOf =
       some "application/json") :=
  ⟨(c10_always_returns_true init0 (initReqFor "s1") "m1" (.connectFail "boom") 0).1,
   (c10_always_returns_true init0 (initReqFor "s1") "m1" (.connectFail "boom") 0).2
     (by decide)⟩

/-! ## Claim C1 -/

/-- The first concrete run of the singleton-upstream scenario: client one
initializes successfully. -/
def c1run1 : HandleResult :=
  handle init0 (initReqFor "s1") "s1" (.initOk caps0) 0

/-- The second concrete run: client two initializes and the upstream
answers "Server already initialized". -/
def c1run2 : HandleResult :=
  handle c1run1.st (initReqFor "s2") "s2" (.initErr "Server already initialized") 1

/-- C1 counterexample.  In the two-client singleton-upstream scenario both
responses are dispatched with HTTP 200, but the first client's session
still resolves to its own connection id "s1", not to
"global-mcp-connection", and the global connection's `sessionIds` set has
size 1, not 2; so the claim as stated is false at this input. -/
theorem c1_singleton_counterexample :
    c1run1.resp = transportDispatch ∧
    c1run2.resp = transportDispatch ∧
    alookup c1run2.st.s2c "s1" = some "s1" ∧
    ("s1" : String) ≠ globalConnectionId ∧
    alookup c1run2.st.s2c "s2" = some globalConnectionId ∧
    (alookup c1run2.st.active globalConnectionId).map (fun g => g.sessionIds.length) =
      some 1 ∧
    ¬ (alookup c1run2.st.s2c "s1" = some globalConnectionId ∧
       (alookup c1run2.st.active globalConnectionId).map (fun g => g.sessionIds.length) =
         some 2) := by
  decide

/-- C1 amended.  Two distinct clients initialize against an upstream that
answers "Server already initialized" to the second.  Both requests are
dispatched with HTTP 200; the second client's session resolves to the
connection "global-mcp-connection", whose `sessionIds` set contains exactly
that one session; the first client's session keeps resolving to the
connection registered under its own session id, whose `sessionIds` set
contains exactly that session.  Only clients after the second join the
global connection. -/
theorem c1_singleton_amended (sid1 sid2 m1 m2 msg : String)
    (caps : ServerCapabilities) (n1 n2 : Nat)
    (hne : sid1 ≠ sid2)
    (hg1 : sid1 ≠ globalConnectionId)
    (hmsg : strIncludes msg "Server already initialized" = true) :
    (handle init0 (initReqFor sid1) m1 (.initOk caps) n1).resp = transportDispatch ∧
    (handle (handle init0 (initReqFor sid1) m1 (.initOk caps) n1).st
      (initReqFor sid2) m2 (.initErr msg) n2).resp = transportDispatch ∧
    alookup (handle (handle init0 (initReqFor sid1) m1 (.initOk caps) n1).st
      (initReqFor sid2) m2 (.initErr msg) n2).st.s2c sid1 = some sid1 ∧
    alookup (handle (handle init0 (initReqFor sid1) m1 (.initOk caps) n1).st
      (initReqFor sid2) m2 (.initErr msg) n2).st.s2c sid2 = some globalConnectionId ∧
    alookup (handle (handle init0 (initReqFor sid1) m1 (.initOk caps) n1).st
      (initReqFor sid2) m2 (.initErr msg) n2).st.active globalConnectionId =
      some (freshConn sid2 defaultGlobalCapabilities n2) ∧
    alookup (handle (handle init0 (initReqFor sid1) m1 (.initOk caps) n1).st
      (initReqFor sid2) m2 (.initErr msg) n2).st.active sid1 =
      some (freshConn sid1 caps n1) ∧
    (freshConn sid2 defaultGlobalCapabilities n2).sessionIds = [sid2] ∧
    (freshConn sid1 caps n1).sessionIds = [sid1] := by
  have hne21 : sid2 ≠ sid1 := fun e => hne e.symm
  have hop1 : (initReqFor sid1).method ≠ "OPTIONS" := fun h =>
    absurd (show ("POST" : String) = "OPTIONS" from h) (by decide)
  have hop2 : (initReqFor sid2).method ≠ "OPTIONS" := fun h =>
    absurd (show ("POST" : String) = "OPTIONS" from h) (by decide)
  have e1 : handle init0 (initReqFor sid1) m1 (.initOk caps) n1 =
      finishInit sid1
        (register { init0 with initializing := insertSes sid1 init0.initializing }
          sid1 sid1 caps n1) := by
    rw [handle_init hop1 rfl,
      handleInitialize_no_mapping
        (show (initReqFor sid1).sessionIdHeader.getD m1 = sid1 from rfl)
        (show alookup init0.s2c sid1 = none from rfl),
      initBody_no_mapping (show alookup init0.s2c sid1 = none from rfl)]
    have hg0 : alookup
        ({ init0 with initializing := insertSes sid1 init0.initializing } : PState).active
        globalConnectionId = none := rfl
    rw [afterExisting_none hg0]
    rfl
  have h1s2c1 : alookup (handle init0 (initReqFor sid1) m1 (.initOk caps) n1).st.s2c sid1 =
      some sid1 := by
    rw [e1]
    show alookup (ainsert init0.s2c sid1 sid1) sid1 = some sid1
    rw [alookup_ainsert, if_pos rfl]
  have h1s2c2 : alookup (handle init0 (initReqFor sid1) m1 (.initOk caps) n1).st.s2c sid2 =
      none := by
    rw [e1]
    show alookup (ainsert init0.s2c sid1 sid1) sid2 = none
    rw [alookup_ainsert, if_neg hne21]
    rfl
  have h1act1 : alookup (handle init0 (initReqFor sid1) m1 (.initOk caps) n1).st.active sid1 =
      some (freshConn sid1 caps n1) := by
    rw [e1]
    show alookup (ainsert init0.active sid1 (freshConn sid1 caps n1)) sid1 =
      some (freshConn sid1 caps n1)
    rw [alookup_ainsert, if_pos rfl]
  have h1actg : alookup (handle init0 (initReqFor sid1) m1 (.initOk caps) n1).st.active
      globalConnectionId = none := by
    rw [e1]
    show alookup (ainsert init0.active sid1 (freshConn sid1 caps n1)) globalConnectionId =
      none
    rw [alookup_ainsert, if_neg (fun e => hg1 e.symm)]
    rfl
  have e2 : handle (handle init0 (initReqFor sid1) m1 (.initOk caps) n1).st
      (initReqFor sid2) m2 (.initErr msg) n2 =
      finishInit sid2
        (register { (handle init0 (initReqFor sid1) m1 (.initOk caps) n1).st with
            initializing := insertSes sid2
              (handle init0 (initReqFor sid1) m1 (.initOk caps) n1).st.initializing }
          sid2 globalConnectionId defaultGlobalCapabilities n2) := by
    rw [handle_init hop2 rfl,
      handleInitialize_no_mapping
        (show (initReqFor sid2).sessionIdHeader.getD m2 = sid2 from rfl) h1s2c2,
      initBody_no_mapping h1s2c2]
    have hg0 : alookup
        ({ (handle init0 (initReqFor sid1) m1 (.initOk caps) n1).st with
            initializing := insertSes sid2
              (handle init0 (initReqFor sid1) m1 (.initOk caps) n1).st.initializing } :
          PState).active globalConnectionId = none := h1actg
    rw [afterExisting_none hg0, newConnection_already hmsg]
  refine ⟨by rw [e1]; rfl, by rw [e2]; rfl, ?_, ?_, ?_, ?_, rfl, rfl⟩
  · rw [e2]
    show alookup
      (ainsert (handle init0 (initReqFor sid1) m1 (.initOk caps) n1).st.s2c
        sid2 globalConnectionId) sid1 = some sid1
    rw [alookup_ainsert, if_neg hne]
    exact h1s2c1
  · rw [e2]
    show alookup
      (ainsert (handle init0 (initReqFor sid1) m1 (.initOk caps) n1).st.s2c
        sid2 globalConnectionId) sid2 = some globalConnectionId
    rw [alookup_ainsert, if_pos rfl]
  · rw [e2]
    show alookup
      (ainsert (handle init0 (initReqFor sid1) m1 (.initOk caps) n1).st.active
        globalConnectionId (freshConn sid2 defaultGlobalCapabilities n2))
      globalConnectionId = some (freshConn sid2 defaultGlobalCapabilities n2)
    rw [alookup_ainsert, if_pos rfl]
  · rw [e2]
    show alookup
      (ainsert (handle init0 (initReqFor sid1) m1 (.initOk caps) n1).st.active
        globalConnectionId (freshConn sid2 defaultGlobalCapabilities n2)) sid1 =
      some (freshConn sid1 caps n1)
    rw [alookup_ainsert, if_neg hg1]
    exact h1act1

theorem c1_singleton_amended_witness :
    (handle init0 (initReqFor "a1") "a1" (.initOk caps0) 0).resp = transportDispatch ∧
    (handle (handle init0 (initReqFor "a1") "a1" (.initOk caps0) 0).st
      (initReqFor "a2") "a2" (.initErr "Server already initialized") 1).resp =
      transportDispatch ∧
    alookup (handle (handle init0 (initReqFor "a1") "a1" (.initOk caps0) 0).st
      (initReqFor "a2") "a2" (.initErr "Server already initialized") 1).st.s2c "a1" =
      some "a1" ∧
    alookup (handle (handle init0 (initReqFor "a1") "a1" (.initOk caps0) 0).st
      (initReqFor "a2") "a2" (.initErr "Server already initialized") 1).st.s2c "a2" =
      some globalConnectionId ∧
    alookup (handle (handle init0 (initReqFor "a1") "a1" (.initOk caps0) 0).st
      (initReqFor "a2") "a2" (.initErr "Server already initialized") 1).st.active
      globalConnectionId = some (freshConn "a2" defaultGlobalCapabilities 1) ∧
    alookup (handle (handle init0 (initReqFor "a1") "a1" (.initOk caps0) 0).st
      (initReqFor "a2") "a2" (.initErr "Server already initialized") 1).st.active "a1" =
      some (freshConn "a1" caps0 0) ∧
    (freshConn "a2" defaultGlobalCapabilities 1).sessionIds = ["a2"] ∧
    (freshConn "a1" caps0 0).sessionIds = ["a1"] :=
  c1_singleton_amended "a1" "a2" "a1" "a2" "Server already initialized" caps0 0 1
    (by decide) (by decide) (by decide)

end McpProxy
